import Mathlib

/-!
Verification development for the SIE ingestion pipeline.

Shallow embedding of the Supabase edge functions and SQL migrations:
  - src/supabase/functions/ingest/index.ts   (intake handler, processJob)
  - src/supabase/functions/events/index.ts   (SSE poll loop)
  - src/supabase/migrations/...162455....sql (validate_api_key, api_clients)
  - src/supabase/migrations/...202140....sql (ingestion_jobs, pipeline_events,
    log_pipeline_event)

JavaScript strings are Lean String; machine integers stay in Nat (no field
here can overflow in the modelled range); database tables are Lean lists;
the nondeterministic parts of the runtime (URL parsing by the platform
library, gen_random_uuid, collaborator outcomes) are explicit oracle
parameters, so every definition is executable.
-/

namespace SIE

/-- Initial-segment test on character lists: the first list is an initial
segment of the second. Used to embed JavaScript regex anchors of the form
caret-literal. -/
def charsLead : List Char → List Char → Bool
  | [], _ => true
  | _ :: _, [] => false
  | a :: as, b :: bs => a == b && charsLead as bs

/-- Occurrence test: the first character list occurs contiguously inside the
second. Embeds JavaScript String.prototype.includes. -/
def charsOccur : List Char → List Char → Bool
  | p, [] => charsLead p []
  | p, c :: rest => charsLead p (c :: rest) || charsOccur p rest

/-- Embedding of JavaScript s.startsWith(p) / a regex anchored at the start. -/
def strStartsWith (s p : String) : Bool :=
  charsLead p.toList s.toList

/-- Embedding of JavaScript s.endsWith(p) / a regex anchored at the end. -/
def strEndsWith (s p : String) : Bool :=
  charsLead p.toList.reverse s.toList.reverse

/-- Embedding of JavaScript s.includes(p). -/
def strIncludes (s p : String) : Bool :=
  charsOccur p.toList s.toList

/-- Embedding of JavaScript s.toLowerCase() on the ASCII range. -/
def jsToLower (s : String) : String :=
  String.mk (s.toList.map Char.toLower)

/-- The outcome of the platform URL parser (new URL(...)) on a source URL:
the protocol (with trailing colon, e.g. "https:") and the hostname. The
handler receives this as an oracle because WHATWG URL parsing is a
platform-library concern. -/
structure ParsedUrl where
  protocol : String
  hostname : String
deriving DecidableEq, Repr

/-- Result record of validateUrl (ingest/index.ts lines 56-97). -/
structure UrlValidation where
  valid : Bool
  error : Option String
deriving DecidableEq, Repr

/-- The 172.16.0.0/12 private-range regex of validateUrl:
172 backslash-dot (1[6-9]|2[0-9]|3[0-1]) backslash-dot, anchored at the
start. The sixteen admissible second octets are checked literally. -/
def blocked172 (hostname : String) : Bool :=
  (List.range 16).any fun i =>
    strStartsWith hostname ("172." ++ toString (16 + i) ++ ".")

/-- The blockedPatterns list of validateUrl (ingest/index.ts lines 67-81),
applied to the already-lowercased hostname. -/
def blockedPatternsMatch (hostname : String) : Bool :=
  hostname == "localhost" ||
  strStartsWith hostname "127." ||
  strStartsWith hostname "10." ||
  blocked172 hostname ||
  strStartsWith hostname "192.168." ||
  strStartsWith hostname "169.254." ||
  strStartsWith hostname "0." ||
  hostname == "[::1]" ||
  strStartsWith hostname "[fd" ||
  strStartsWith hostname "[fe80:" ||
  strEndsWith hostname ".local" ||
  strEndsWith hostname ".internal" ||
  strEndsWith hostname ".localhost"

/-- The blockedHostnames list of validateUrl (ingest/index.ts line 88). -/
def blockedHostnamesHit (hostname : String) : Bool :=
  hostname == "metadata" ||
  hostname == "metadata.google.internal" ||
  hostname == "instance-data"

/-- validateUrl (ingest/index.ts lines 56-97). The argument is the outcome
of new URL(urlString): none models the parser throwing (caught at line 94).
-/
def validateUrl (parsed : Option ParsedUrl) : UrlValidation :=
  match parsed with
  | none => { valid := false, error := some "Invalid URL format." }
  | some url =>
    if !(url.protocol == "http:" || url.protocol == "https:") then
      { valid := false, error := some "Invalid protocol. Only HTTP/HTTPS allowed." }
    else
      let hostname := jsToLower url.hostname
      if blockedPatternsMatch hostname then
        { valid := false, error := some "Access to internal resources is not allowed." }
      else if blockedHostnamesHit hostname then
        { valid := false, error := some "Access to internal resources is not allowed." }
      else
        { valid := true, error := none }

/-- The domain-substring cascade of detectPlatform, applied to the
already-lowercased URL (the local lowerUrl of the source). -/
def detectPlatformLower (lowerUrl : String) : String :=
  if strIncludes lowerUrl "twitter.com" || strIncludes lowerUrl "x.com" then "twitter"
  else if strIncludes lowerUrl "reddit.com" then "reddit"
  else if strIncludes lowerUrl "linkedin.com" then "linkedin"
  else if strIncludes lowerUrl "instagram.com" then "instagram"
  else if strIncludes lowerUrl "youtube.com" || strIncludes lowerUrl "youtu.be" then "youtube"
  else "news"

/-- detectPlatform (ingest/index.ts lines 356-364). -/
def detectPlatform (url : String) : String :=
  detectPlatformLower (jsToLower url)

/-- A row of the api_clients table
(migrations/20251210162455....sql lines 2-13). -/
structure ApiClient where
  id : Nat
  name : String
  apiKey : String
  isActive : Bool
  rateLimitPerMinute : Nat
  allowedEndpoints : List String
  webhookUrl : Option String
deriving DecidableEq, Repr

/-- One row returned by the SQL function validate_api_key. -/
structure KeyRow where
  clientId : Nat
  clientName : String
  isValidRow : Bool
  rateLimit : Nat
deriving DecidableEq, Repr

/-- The SQL function validate_api_key
(migrations/20251210162455....sql lines 36-52): selects the rows of
api_clients whose api_key matches and computes
is_active AND endpoint member of allowed_endpoints per row. Note that no
usage count or time window enters the computation. -/
def validate_api_key (clients : List ApiClient) (pApiKey pEndpoint : String) :
    List KeyRow :=
  (clients.filter fun c => c.apiKey == pApiKey).map fun c =>
    { clientId := c.id
      clientName := c.name
      isValidRow := c.isActive && c.allowedEndpoints.contains pEndpoint
      rateLimit := c.rateLimitPerMinute }

/-- Result record of the edge-function validateApiKey
(ingest/index.ts lines 116-123). -/
structure ValidateResult where
  isValid : Bool
  clientId : Option Nat := none
  clientName : Option String := none
  rateLimit : Option Nat := none
  webhookUrl : Option String := none
  error : Option String := none
deriving DecidableEq, Repr

/-- validateApiKey (ingest/index.ts lines 125-163). A missing x-api-key
header (none) is admitted immediately with no client identification; a
present key is checked through the validate_api_key RPC and, when valid,
the client's webhook_url is looked up. -/
def validateApiKey (clients : List ApiClient) (apiKey : Option String)
    (endpoint : String) : ValidateResult :=
  match apiKey with
  | none => { isValid := true }
  | some k =>
    match validate_api_key clients k endpoint with
    | [] => { isValid := false, error := some "Invalid API key" }
    | r :: _ =>
      if !r.isValidRow then
        { isValid := false, error := some "API key is inactive or endpoint not allowed" }
      else
        { isValid := true
          clientId := some r.clientId
          clientName := some r.clientName
          rateLimit := some r.rateLimit
          webhookUrl := (clients.find? fun c => c.id == r.clientId).bind
            (fun c => c.webhookUrl) }

/-- A row of the api_usage_logs table
(migrations/20251210162455....sql lines 16-25). -/
structure UsageLog where
  clientId : Nat
  endpoint : String
  method : String
  statusCode : Nat
deriving DecidableEq, Repr

/-- logApiUsage (ingest/index.ts lines 165-184): appends a usage row via
the log_api_usage RPC, or does nothing when no clientId is known. -/
def logApiUsage (logs : List UsageLog) (clientId : Option Nat)
    (endpoint method : String) (statusCode : Nat) : List UsageLog :=
  match clientId with
  | none => logs
  | some cid => logs ++ [{ clientId := cid, endpoint := endpoint,
                           method := method, statusCode := statusCode }]

/-- The request body of the ingest endpoint (interface IngestRequest,
ingest/index.ts lines 202-207). The interface has exactly these fields:
there is no tenant, items, accounts or keywords field. Optional JSON
fields are Option; absent numeric metadata is dropped as irrelevant to
control flow. -/
structure IngestRequest where
  source_url : Option String
  platform : Option String := none
  priority : Option Nat := none
deriving DecidableEq, Repr

/-- JavaScript truthiness for an optional string: undefined and the empty
string are falsy (the code guards with !body.source_url). -/
def jsFalsy : Option String → Bool
  | none => true
  | some s => s == ""

/-- JavaScript a || b for an optional string against a string default
(body.platform || detectPlatform(...)). -/
def jsOrStr (v : Option String) (d : String) : String :=
  match v with
  | none => d
  | some s => if s == "" then d else s

/-- JavaScript a || b for an optional number against a numeric default
(body.priority || 5): 0 is falsy. -/
def jsOrNat (v : Option Nat) (d : Nat) : Nat :=
  match v with
  | none => d
  | some n => if n == 0 then d else n

/-- The row the handler inserts into ingestion_jobs
(ingest/index.ts lines 302-312). -/
structure JobRow where
  source_url : String
  platform : String
  priority : Nat
  status : String
deriving DecidableEq, Repr

/-- One log_pipeline_event RPC call issued by the handler or by
processJob: event type, stage, message. -/
structure EventCall where
  eventType : String
  stage : String
  message : String
deriving DecidableEq, Repr

/-- Everything the intake handler writes or schedules, next to the HTTP
status it returns (Deno.serve handler, ingest/index.ts lines 243-354). -/
structure HandlerResult where
  status : Nat
  jobsInserted : List JobRow
  eventsLogged : List EventCall
  usageLogs : List UsageLog
  processScheduled : Option JobRow
deriving DecidableEq, Repr

/-- The intake handler (Deno.serve, ingest/index.ts lines 243-354) as a
function of: the api_clients table, the platform URL parser (oracle), the
HTTP method, the x-api-key header, the parsed JSON body (none models
req.json() throwing) and whether the database insert succeeds. Order of
checks follows the source: API key, method, body, source_url presence,
URL validation, insert, event, background processJob scheduling. -/
def serveIngest (clients : List ApiClient) (parseUrl : String → Option ParsedUrl)
    (method : String) (apiKey : Option String) (body : Option IngestRequest)
    (insertOk : Bool) : HandlerResult :=
  let auth := validateApiKey clients apiKey "ingest"
  if !auth.isValid then
    { status := 401, jobsInserted := [], eventsLogged := [],
      usageLogs := [], processScheduled := none }
  else if method != "POST" then
    { status := 405, jobsInserted := [], eventsLogged := [],
      usageLogs := logApiUsage [] auth.clientId "ingest" method 405,
      processScheduled := none }
  else
    match body with
    | none =>
      { status := 500, jobsInserted := [], eventsLogged := [],
        usageLogs := logApiUsage [] auth.clientId "ingest" method 500,
        processScheduled := none }
    | some b =>
      if jsFalsy b.source_url then
        { status := 400, jobsInserted := [], eventsLogged := [],
          usageLogs := logApiUsage [] auth.clientId "ingest" method 400,
          processScheduled := none }
      else
        match b.source_url with
        | none =>
          { status := 400, jobsInserted := [], eventsLogged := [],
            usageLogs := logApiUsage [] auth.clientId "ingest" method 400,
            processScheduled := none }
        | some su =>
          let uv := validateUrl (parseUrl su)
          if !uv.valid then
            { status := 400, jobsInserted := [], eventsLogged := [],
              usageLogs := logApiUsage [] auth.clientId "ingest" method 400,
              processScheduled := none }
          else
            let platform := jsOrStr b.platform (detectPlatform su)
            if !insertOk then
              { status := 500, jobsInserted := [], eventsLogged := [],
                usageLogs := logApiUsage [] auth.clientId "ingest" method 500,
                processScheduled := none }
            else
              let job : JobRow :=
                { source_url := su, platform := platform,
                  priority := jsOrNat b.priority 5, status := "pending" }
              { status := 201
                jobsInserted := [job]
                eventsLogged := [{ eventType := "job_created", stage := "ingestion",
                                   message := "Ingestion job created" }]
                usageLogs := logApiUsage [] auth.clientId "ingest" method 201
                processScheduled := some job }

/-- The outcome of the one external scrape call of processJob
(scrapeWithFirecrawl, ingest/index.ts lines 4-48): the fetch itself threw
(thrown), the API answered non-ok (failure, which processJob turns into a
thrown Error at line 695), or it succeeded with optional markdown/html,
links and an ogImage metadata entry. -/
inductive ScrapeOutcome where
  | thrown
  | failure (err : String)
  | success (markdown html : Option String) (links : List String)
      (ogImage : Option String)
deriving DecidableEq, Repr

/-- One update statement processJob issues against the job's row in
ingestion_jobs: only the columns the source sets. Fields left none are
untouched by that update. -/
structure JobUpdate where
  status : Option String := none
  progress : Option Nat := none
  rawContent : Option String := none
  errorMessage : Option String := none
  setStartedAt : Bool := false
  setCompletedAt : Bool := false
deriving DecidableEq, Repr

/-- The observable trace of one processJob run: the ordered job-row
updates, the ordered log_pipeline_event calls, how many insights rows were
inserted, and which webhook notifications were sent. -/
structure Trace where
  updates : List JobUpdate
  events : List EventCall
  insightsInserted : Nat
  webhooks : List String
deriving DecidableEq, Repr

/-- blockedDomains (ingest/index.ts line 664). -/
def blockedDomains : List String :=
  ["reddit.com", "twitter.com", "x.com", "facebook.com", "instagram.com", "linkedin.com"]

/-- The helpful-error rewriting of the scrape error detail
(ingest/index.ts lines 684-693). -/
def helpfulError (blockedDomain : Option String) (errorDetail : String) : String :=
  if blockedDomain.isSome && (strIncludes errorDetail "blocked" || strIncludes errorDetail "403") then
    "blocked or requires enterprise access. Try a different URL."
  else if strIncludes errorDetail "rate limit" then
    "Firecrawl rate limit exceeded. Wait a few minutes and retry."
  else if strIncludes errorDetail "timeout" then
    "Request timed out. The target site may be slow or blocking requests."
  else if strIncludes errorDetail "401" || strIncludes errorDetail "Unauthorized" then
    "Invalid Firecrawl API key. Please check your FIRECRAWL_API_KEY secret."
  else errorDetail

/-- The image-link test of processJob (ingest/index.ts line 743): regex
backslash-dot (jpg|jpeg|png|gif|webp) anchored at the end,
case-insensitive. -/
def isImageLink (link : String) : Bool :=
  let l := jsToLower link
  strEndsWith l ".jpg" || strEndsWith l ".jpeg" || strEndsWith l ".png" ||
  strEndsWith l ".gif" || strEndsWith l ".webp"

/-- processJob (ingest/index.ts lines 645-840) as a trace function of: the
FIRECRAWL_API_KEY configuration flag, the client webhook, the source URL,
the scrape outcome and the OCR text the enrichment collaborator returns.
The only throw points inside the try block are the scrape call and the
explicit throw on a non-ok scrape; analyzeWithNLP, extractOCR and
sendWebhook catch internally. The catch block (lines 823-839) issues a
single update setting status failed: there is no retry_count, no
re-enqueue, no delay and no dead-letter write anywhere in the function or
the schema. -/
def processJob (firecrawlConfigured : Bool) (webhookUrl : Option String)
    (sourceUrl : String) (scrape : ScrapeOutcome) (ocrText : String) : Trace :=
  if !firecrawlConfigured then
    { updates := [{ status := some "failed",
                    errorMessage := some "Firecrawl API key not configured" }]
      events := [{ eventType := "job_failed", stage := "error",
                   message := "Firecrawl API key not configured" }]
      insightsInserted := 0
      webhooks := [] }
  else
    let urlLower := jsToLower sourceUrl
    let blockedDomain := blockedDomains.find? fun d => strIncludes urlLower d
    let warnEvents : List EventCall :=
      match blockedDomain with
      | some _ => [{ eventType := "warning", stage := "ingestion",
                     message := "Site may have scraping restrictions. Attempting anyway..." }]
      | none => []
    let startUpdates : List JobUpdate :=
      [{ status := some "ingesting", progress := some 10, setStartedAt := true }]
    let startEvents : List EventCall :=
      { eventType := "status_change", stage := "ingestion",
        message := "Started Firecrawl content scraping" } :: warnEvents
    let failTrace : String → Trace := fun msg =>
      { updates := startUpdates ++ [{ status := some "failed", errorMessage := some msg }]
        events := startEvents ++ [{ eventType := "job_failed", stage := "error",
                                    message := "Job failed" }]
        insightsInserted := 0
        webhooks := match webhookUrl with | some _ => ["job.failed"] | none => [] }
    match scrape with
    | .thrown => failTrace "fetch failed"
    | .failure err => failTrace ("Scraping failed: " ++ helpfulError blockedDomain err)
    | .success markdown html links ogImage =>
      let content := jsOrStr markdown (jsOrStr html "")
      let imageUrls :=
        (match ogImage with | some o => [o] | none => []) ++ links.filter isImageLink
      let ocrEvents : List EventCall :=
        if imageUrls.length > 0 then
          { eventType := "ocr_started", stage := "enrichment",
            message := "Running OCR on images" } ::
            (if ocrText != "" then
              [{ eventType := "ocr_completed", stage := "enrichment",
                 message := "OCR extracted characters" }]
            else [])
        else
          [{ eventType := "ocr_skipped", stage := "enrichment",
             message := "No images found for OCR" }]
      { updates := startUpdates ++
          [{ status := some "processing", progress := some 30, rawContent := some content },
           { status := some "processing", progress := some 50 },
           { status := some "enriching", progress := some 70 },
           { progress := some 90 },
           { status := some "completed", progress := some 100, setCompletedAt := true }]
        events := startEvents ++
          [{ eventType := "status_change", stage := "processing",
             message := "Content scraped, starting AI-powered NLP analysis" },
           { eventType := "nlp_started", stage := "processing",
             message := "Running NLP" },
           { eventType := "nlp_completed", stage := "processing",
             message := "NLP complete" }] ++ ocrEvents ++
          [{ eventType := "job_completed", stage := "completed",
             message := "Pipeline completed with AI-powered NLP and OCR" }]
        insightsInserted := 1
        webhooks := match webhookUrl with | some _ => ["job.completed"] | none => [] }

/-- The ordered sequence of status values a processJob trace writes. -/
def statusSeq (t : Trace) : List String :=
  t.updates.filterMap JobUpdate.status

/-- The non-terminal states of the job state machine
(job_status enum, migrations/...202140 line 2, minus the two terminal
states). -/
def nonTerminal (s : String) : Bool :=
  s == "pending" || s == "ingesting" || s == "processing" || s == "enriching"

/-- The edges of the state graph the specification allows: the forward
chain, failed from any non-terminal state, and the retry re-entry edge to
pending from any non-terminal state. -/
def allowedEdge (a b : String) : Bool :=
  (a == "pending" && b == "ingesting") ||
  (a == "ingesting" && b == "processing") ||
  (a == "processing" && b == "enriching") ||
  (a == "enriching" && b == "completed") ||
  (nonTerminal a && b == "failed") ||
  (nonTerminal a && b == "pending")

/-- A row of pipeline_events (migrations/...202140 lines 39-47). The id
column is gen_random_uuid(): a uuid is modelled as a Nat carrying only its
comparison order, since the SQL gt filter in the events function compares
ids; created_at (now()) is a Nat clock tick. -/
structure PgEvent where
  id : Nat
  jobId : Nat
  eventType : String
  createdAt : Nat
deriving DecidableEq, Repr

/-- The pipeline_events table together with the state the oracles consume:
how many uuids were drawn so far and the current clock. -/
structure EventsDb where
  rows : List PgEvent
  nextIdx : Nat
  clock : Nat
deriving DecidableEq, Repr

/-- log_pipeline_event (migrations/...202140 lines 107-123): inserts one
row whose id is the next value of the uuid oracle (gen_random_uuid draws
values in no particular order, so the oracle is an arbitrary stream) and
whose created_at is now(); returns the fresh id. The function only
inserts: no statement anywhere updates or deletes a pipeline_events row.
-/
def log_pipeline_event (uuid : Nat → Nat) (db : EventsDb) (jobId : Nat)
    (eventType : String) : EventsDb × Nat :=
  let newId := uuid db.nextIdx
  ({ rows := db.rows ++ [{ id := newId, jobId := jobId, eventType := eventType,
                           createdAt := db.clock }]
     nextIdx := db.nextIdx + 1
     clock := db.clock + 1 }, newId)

/-- One iteration of the SSE poll loop (events/index.ts lines 36-65):
select pipeline_events — filtered to id greater than the remembered
lastEventId when one is set — ordered by created_at descending, limited to
10 rows; remember the id of the first (newest) returned row; deliver the
rows oldest-first. The stream handler initialises lastEventId to null
(line 28) and reads no resumption parameter and no job filter from the
request. -/
def pollOnce (table : List PgEvent) (lastEventId : Option Nat) :
    List PgEvent × Option Nat :=
  let filtered :=
    match lastEventId with
    | none => table
    | some l => table.filter fun e => l < e.id
  let sorted := filtered.insertionSort fun a b => b.createdAt ≤ a.createdAt
  match sorted.take 10 with
  | [] => ([], lastEventId)
  | e :: es => ((e :: es).reverse, some e.id)

/-- Modelled from the spec: the backend worker's progress state. The
FastAPI/Celery worker that maintains these counters is not under src/ —
only its schema (backend/init.sql lines 62-66: items_total,
items_processed, progress_percent) and the SRS Progress Tracking section
(progress reported as a percentage, updated after each item processed,
items_processed / items_total tracked) describe it. progress_percent is
DECIMAL(5,2), modelled as a rational. -/
structure BackendJob where
  itemsTotal : Nat
  itemsProcessed : Nat
  progressPercent : ℚ
deriving DecidableEq, Repr

/-- Modelled from the spec: the job row as created on intake, before any
item is processed. -/
def initBackendJob (total : Nat) : BackendJob :=
  { itemsTotal := total, itemsProcessed := 0, progressPercent := 0 }

/-- Modelled from the spec: recording one processed item increments
items_processed and recomputes progress_percent as
100 * items_processed / items_total when items_total is positive. -/
def recordItemProcessed (j : BackendJob) : BackendJob :=
  let ip := j.itemsProcessed + 1
  { j with itemsProcessed := ip
           progressPercent :=
             if 0 < j.itemsTotal then (100 * ip : ℚ) / j.itemsTotal
             else j.progressPercent }

/-- Modelled from the spec: the job state after k item-processed updates.
-/
def jobAfter (total : Nat) : Nat → BackendJob
  | 0 => initBackendJob total
  | k + 1 => recordItemProcessed (jobAfter total k)

/-- The hostname classes the specification names as blocked: localhost,
the private/loopback/link-local ranges 127.*, 10.*, 172.16-31.*,
192.168.*, 169.254.*, 0.*, and the .local/.internal/.localhost suffixes.
Stated from the claim's words, to be compared with blockedPatternsMatch of
the source. -/
def claimBlockedHostname (h : String) : Bool :=
  h == "localhost" ||
  strStartsWith h "127." ||
  strStartsWith h "10." ||
  blocked172 h ||
  strStartsWith h "192.168." ||
  strStartsWith h "169.254." ||
  strStartsWith h "0." ||
  strEndsWith h ".local" ||
  strEndsWith h ".internal" ||
  strEndsWith h ".localhost"

lemma claimBlocked_implies_source (h : String)
    (hb : claimBlockedHostname h = true) : blockedPatternsMatch h = true := by
  simp only [claimBlockedHostname, Bool.or_eq_true] at hb
  simp only [blockedPatternsMatch, Bool.or_eq_true]
  tauto

/-- One step of the state graph is acceptable when the status is repeated
(an update that does not change it) or the pair is an allowed edge. -/
def stepOk (a b : String) : Bool :=
  a == b || allowedEdge a b

/-- Every adjacent pair of the status sequence is an acceptable step. -/
def pathOk : List String → Bool
  | [] => true
  | [_] => true
  | a :: b :: rest => stepOk a b && pathOk (b :: rest)

/-- Strict descent of a Nat list, adjacent-pairwise. -/
def strictlyDescending : List Nat → Bool
  | [] => true
  | [_] => true
  | a :: b :: rest => Nat.blt b a && strictlyDescending (b :: rest)

lemma statusSeq_processJob (fk : Bool) (wh : Option String) (su : String)
    (sc : ScrapeOutcome) (ocrText : String) :
    statusSeq (processJob fk wh su sc ocrText) = ["failed"] ∨
    statusSeq (processJob fk wh su sc ocrText) = ["ingesting", "failed"] ∨
    statusSeq (processJob fk wh su sc ocrText) =
      ["ingesting", "processing", "processing", "enriching", "completed"] := by
  cases fk with
  | false => exact Or.inl rfl
  | true =>
    cases sc with
    | thrown => exact Or.inr (Or.inl rfl)
    | failure err => exact Or.inr (Or.inl rfl)
    | success markdown html links ogImage => exact Or.inr (Or.inr rfl)

end SIE

namespace SIE

/-- Claim C5: for every configuration and scrape outcome, the status
sequence a processJob run writes — starting from the pending status the
intake handler inserts — only moves forward along
pending, ingesting, processing, enriching, completed, with failed
reachable from any non-terminal state and the retry-to-pending edge the
specification permits; no backward transition occurs, and completed and
failed are terminal (they never precede a later status write). -/
theorem status_transitions_monotone (fk : Bool) (wh : Option String)
    (su : String) (sc : ScrapeOutcome) (ocrText : String) :
    pathOk ("pending" :: statusSeq (processJob fk wh su sc ocrText)) = true ∧
    (("pending" :: statusSeq (processJob fk wh su sc ocrText)).dropLast.all
      fun s => !(s == "completed" || s == "failed")) = true := by
  rcases statusSeq_processJob fk wh su sc ocrText with h | h | h <;>
    rw [h] <;> exact ⟨by decide, by decide⟩

theorem status_transitions_monotone_witness :
    pathOk ("pending" :: statusSeq (processJob true none "https://example.com/a"
      (ScrapeOutcome.success (some "text") none [] none) "")) = true ∧
    (("pending" :: statusSeq (processJob true none "https://example.com/a"
      (ScrapeOutcome.success (some "text") none [] none) "")).dropLast.all
      fun s => !(s == "completed" || s == "failed")) = true :=
  status_transitions_monotone true none "https://example.com/a"
    (ScrapeOutcome.success (some "text") none [] none) ""

/-- Claim C10: detectPlatform is total on strings with codomain exactly
twitter, reddit, linkedin, instagram, youtube, news, and the intake
handler's platform default (body.platform absent) is detectPlatform of the
source URL. -/
theorem detectPlatform_total (url : String) :
    (detectPlatform url = "twitter" ∨ detectPlatform url = "reddit" ∨
     detectPlatform url = "linkedin" ∨ detectPlatform url = "instagram" ∨
     detectPlatform url = "youtube" ∨ detectPlatform url = "news") ∧
    jsOrStr none (detectPlatform url) = detectPlatform url := by
  constructor
  · unfold detectPlatform detectPlatformLower
    split_ifs <;> tauto
  · rfl

theorem detectPlatform_total_witness :
    (detectPlatform "https://youtu.be/dQw4" = "twitter" ∨
     detectPlatform "https://youtu.be/dQw4" = "reddit" ∨
     detectPlatform "https://youtu.be/dQw4" = "linkedin" ∨
     detectPlatform "https://youtu.be/dQw4" = "instagram" ∨
     detectPlatform "https://youtu.be/dQw4" = "youtube" ∨
     detectPlatform "https://youtu.be/dQw4" = "news") ∧
    jsOrStr none (detectPlatform "https://youtu.be/dQw4") =
      detectPlatform "https://youtu.be/dQw4" :=
  detectPlatform_total "https://youtu.be/dQw4"

/-- Claim C1: the specification requires a failed stage execution with a
retryable error to be re-enqueued along the delay ladder 60s, 300s, 900s
for up to 3 retries before dead-lettering. The code does none of this: on
a retryable scrape error (here a network timeout) processJob writes
ingesting and then immediately failed — zero re-enqueues to pending, a
single terminal failed update, and no retry or dead-letter action exists
in the trace or the schema. -/
theorem no_retry_on_retryable_error :
    statusSeq (processJob true none "https://example.com/article"
      (ScrapeOutcome.failure "network timeout") "") = ["ingesting", "failed"] ∧
    ((processJob true none "https://example.com/article"
      (ScrapeOutcome.failure "network timeout") "").updates.filter
        fun u => u.status == some "pending").length = 0 ∧
    ((processJob true none "https://example.com/article"
      (ScrapeOutcome.failure "network timeout") "").updates.filter
        fun u => u.status == some "failed").length = 1 := by
  decide

/-- Claim C2: the specification requires resumption from a last-seen
sequence id with gap-free, duplicate-free, non-decreasing delivery. The
poll loop instead remembers the uuid of the newest-by-created_at row and
filters by uuid comparison: with two events of one job whose random uuids
order opposite to their creation order, the first poll delivers them in
decreasing id order and the second poll delivers the first event again (a
duplicate). The stream handler also accepts no last-seen parameter at all
(lastEventId starts null). -/
theorem poll_loop_duplicates :
    (pollOnce [{ id := 2, jobId := 1, eventType := "job_created", createdAt := 0 },
               { id := 1, jobId := 1, eventType := "status_change", createdAt := 1 }]
      none).1.map PgEvent.id = [2, 1] ∧
    (pollOnce [{ id := 2, jobId := 1, eventType := "job_created", createdAt := 0 },
               { id := 1, jobId := 1, eventType := "status_change", createdAt := 1 }]
      none).2 = some 1 ∧
    (pollOnce [{ id := 2, jobId := 1, eventType := "job_created", createdAt := 0 },
               { id := 1, jobId := 1, eventType := "status_change", createdAt := 1 }]
      (some 1)).1.map PgEvent.id = [2] := by
  decide

/-- Claim C4: the specification requires intake requests missing the
required fields (tenant; one of items/accounts/keywords) to be rejected
with a validation error, no job record and no event. The IngestRequest
interface of the code has no such fields, and a request carrying only a
source_url is accepted: 201, one job row inserted, one job_created event
logged, and background processing scheduled. -/
theorem missing_required_fields_accepted :
    (serveIngest [] (fun _ => some { protocol := "https:", hostname := "example.com" })
      "POST" none (some { source_url := some "https://example.com/a" }) true).status = 201 ∧
    ((serveIngest [] (fun _ => some { protocol := "https:", hostname := "example.com" })
      "POST" none (some { source_url := some "https://example.com/a" }) true).jobsInserted).length = 1 ∧
    ((serveIngest [] (fun _ => some { protocol := "https:", hostname := "example.com" })
      "POST" none (some { source_url := some "https://example.com/a" }) true).eventsLogged).length = 1 ∧
    ((serveIngest [] (fun _ => some { protocol := "https:", hostname := "example.com" })
      "POST" none (some { source_url := some "https://example.com/a" }) true).processScheduled).isSome = true := by
  decide

/-- Claim C3: the specification requires a tenant configured at R requests
per minute to have at least one of R+1 requests rejected with an admission
error. Admission in the code is validate_api_key, whose result depends
only on the static api_clients row (key match, is_active, endpoint list) —
no counter or time window — so for a client configured at 10 requests per
minute, 11 identical requests all return 201 and none is rejected. -/
theorem no_admission_rejection_at_limit :
    (List.replicate 11 (serveIngest
      [{ id := 1, name := "acme", apiKey := "sie_k1", isActive := true,
         rateLimitPerMinute := 10, allowedEndpoints := ["ingest"], webhookUrl := none }]
      (fun _ => some { protocol := "https:", hostname := "example.com" })
      "POST" (some "sie_k1") (some { source_url := some "https://example.com/a" }) true)).length = 11 ∧
    ((List.replicate 11 (serveIngest
      [{ id := 1, name := "acme", apiKey := "sie_k1", isActive := true,
         rateLimitPerMinute := 10, allowedEndpoints := ["ingest"], webhookUrl := none }]
      (fun _ => some { protocol := "https:", hostname := "example.com" })
      "POST" (some "sie_k1") (some { source_url := some "https://example.com/a" }) true)).filter
        fun r => r.status != 201).length = 0 := by
  decide

/-- Claim C6: the specification requires events of one job to carry a
strictly increasing sequence id and never be revised. pipeline_events ids
come from gen_random_uuid with no per-job counter: under a uuid draw in
which the second value orders below the first, two successive
log_pipeline_event inserts for the same job produce rows whose created_at
increases while their ids strictly decrease; the earlier-published row is
itself unchanged (append-only). -/
theorem event_ids_not_monotone :
    ((log_pipeline_event (fun n => if n == 0 then 7 else 2)
        ((log_pipeline_event (fun n => if n == 0 then 7 else 2)
          { rows := [], nextIdx := 0, clock := 0 } 1 "job_created").1)
        1 "status_change").1).rows.map PgEvent.jobId = [1, 1] ∧
    ((log_pipeline_event (fun n => if n == 0 then 7 else 2)
        ((log_pipeline_event (fun n => if n == 0 then 7 else 2)
          { rows := [], nextIdx := 0, clock := 0 } 1 "job_created").1)
        1 "status_change").1).rows.map PgEvent.createdAt = [0, 1] ∧
    strictlyDescending
      (((log_pipeline_event (fun n => if n == 0 then 7 else 2)
        ((log_pipeline_event (fun n => if n == 0 then 7 else 2)
          { rows := [], nextIdx := 0, clock := 0 } 1 "job_created").1)
        1 "status_change").1).rows.map PgEvent.id) = true ∧
    ((log_pipeline_event (fun n => if n == 0 then 7 else 2)
        ((log_pipeline_event (fun n => if n == 0 then 7 else 2)
          { rows := [], nextIdx := 0, clock := 0 } 1 "job_created").1)
        1 "status_change").1).rows.take 1 =
      ((log_pipeline_event (fun n => if n == 0 then 7 else 2)
          { rows := [], nextIdx := 0, clock := 0 } 1 "job_created").1).rows := by
  decide

end SIE

namespace SIE

lemma jobAfter_itemsTotal (total k : Nat) : (jobAfter total k).itemsTotal = total := by
  induction k with
  | zero => rfl
  | succ k ih => simp [jobAfter, recordItemProcessed, ih]

lemma jobAfter_itemsProcessed (total k : Nat) :
    (jobAfter total k).itemsProcessed = k := by
  induction k with
  | zero => rfl
  | succ k ih => simp [jobAfter, recordItemProcessed, ih]

/-- Claim C7: in the modelled backend progress tracking (the worker code
is absent from src/; the model follows the SRS Progress Tracking section
and the backend/init.sql columns), items_processed never decreases across
successive updates, and whenever items_total is positive, progress_percent
equals 100 * items_processed / items_total. -/
theorem progress_monotone_and_exact (total k : Nat) :
    (jobAfter total k).itemsProcessed ≤ (jobAfter total (k + 1)).itemsProcessed ∧
    (0 < total →
      (jobAfter total k).progressPercent =
        100 * ((jobAfter total k).itemsProcessed : ℚ) / (total : ℚ)) := by
  constructor
  · rw [jobAfter_itemsProcessed, jobAfter_itemsProcessed]
    exact Nat.le_succ k
  · intro ht
    induction k with
    | zero => simp [jobAfter, initBackendJob]
    | succ k ih =>
      have h1 : (jobAfter total (k + 1)).progressPercent =
          100 * (((k : ℚ) + 1)) / (total : ℚ) := by
        show (recordItemProcessed (jobAfter total k)).progressPercent = _
        unfold recordItemProcessed
        simp [jobAfter_itemsTotal, jobAfter_itemsProcessed, ht]
      rw [h1, jobAfter_itemsProcessed]
      push_cast
      ring

theorem progress_monotone_and_exact_witness :
    0 < 4 ∧
    (jobAfter 4 3).itemsProcessed ≤ (jobAfter 4 (3 + 1)).itemsProcessed ∧
    (jobAfter 4 3).progressPercent =
      100 * ((jobAfter 4 3).itemsProcessed : ℚ) / ((4 : Nat) : ℚ) :=
  ⟨by decide, (progress_monotone_and_exact 4 3).1,
    (progress_monotone_and_exact 4 3).2 (by decide)⟩

/-- Claim C8: a request carrying no x-api-key header is admitted with
isValid true and no client identification at all (no clientId, clientName,
rateLimit or webhookUrl), the usage logger is a no-op without a clientId,
and the whole intake handler records no usage row for an anonymous
request. -/
theorem anonymous_requests_admitted (clients : List ApiClient)
    (endpoint method : String) (logs : List UsageLog) (statusCode : Nat)
    (parseUrl : String → Option ParsedUrl) (body : Option IngestRequest)
    (insertOk : Bool) :
    validateApiKey clients none endpoint = { isValid := true } ∧
    logApiUsage logs none endpoint method statusCode = logs ∧
    (serveIngest clients parseUrl method none body insertOk).usageLogs = [] := by
  refine ⟨rfl, rfl, ?_⟩
  unfold serveIngest
  repeat' split
  all_goals simp [validateApiKey, logApiUsage]
  all_goals (split <;> rfl)

theorem anonymous_requests_admitted_witness :
    validateApiKey [] none "ingest" = { isValid := true } ∧
    logApiUsage [] none "ingest" "POST" 201 = [] ∧
    (serveIngest [] (fun _ => none) "POST" none none true).usageLogs = [] :=
  anonymous_requests_admitted [] "ingest" "POST" [] 201 (fun _ => none) none true

lemma validateUrl_invalid_of_blocked (u : ParsedUrl)
    (hbad : ((u.protocol != "http:" && u.protocol != "https:") ||
             claimBlockedHostname (jsToLower u.hostname)) = true) :
    (validateUrl (some u)).valid = false := by
  unfold validateUrl
  rcases (Bool.or_eq_true _ _).mp hbad with hp | hh
  · rcases (Bool.and_eq_true _ _).mp hp with ⟨hp1, hp2⟩
    have h1 : (u.protocol == "http:") = false := by
      simpa using hp1
    have h2 : (u.protocol == "https:") = false := by
      simpa using hp2
    simp [h1, h2]
  · have h2 := claimBlocked_implies_source _ hh
    by_cases hp : (u.protocol == "http:" || u.protocol == "https:") = true
    · simp [hp, h2]
    · simp only [Bool.not_eq_true] at hp
      simp [hp]

/-- Claim C9: every submitted source_url whose parsed scheme is neither
http nor https, or whose lowercased hostname is localhost, lies in the
127.*, 10.*, 172.16-31.*, 192.168.*, 169.254.* or 0.* ranges, or ends in
.local, .internal or .localhost, is rejected by the intake handler with a
400 validation error, with no job row inserted and no event logged. -/
theorem ssrf_urls_rejected (clients : List ApiClient)
    (parseUrl : String → Option ParsedUrl) (apiKey : Option String)
    (b : IngestRequest) (su : String) (u : ParsedUrl) (insertOk : Bool)
    (hsrc : b.source_url = some su) (hne : su ≠ "")
    (hparse : parseUrl su = some u)
    (hauth : (validateApiKey clients apiKey "ingest").isValid = true)
    (hbad : ((u.protocol != "http:" && u.protocol != "https:") ||
             claimBlockedHostname (jsToLower u.hostname)) = true) :
    (serveIngest clients parseUrl "POST" apiKey (some b) insertOk).status = 400 ∧
    (serveIngest clients parseUrl "POST" apiKey (some b) insertOk).jobsInserted = [] ∧
    (serveIngest clients parseUrl "POST" apiKey (some b) insertOk).eventsLogged = [] := by
  have hval : (validateUrl (parseUrl su)).valid = false := by
    rw [hparse]
    exact validateUrl_invalid_of_blocked u hbad
  have hfalsy : jsFalsy b.source_url = false := by
    rw [hsrc]
    simp [jsFalsy, hne]
  unfold serveIngest
  simp [hauth, hfalsy, hsrc, hval]

theorem ssrf_urls_rejected_witness :
    (serveIngest [] (fun _ => some { protocol := "https:", hostname := "169.254.169.254" })
      "POST" none (some { source_url := some "https://169.254.169.254/latest" }) true).status = 400 ∧
    (serveIngest [] (fun _ => some { protocol := "https:", hostname := "169.254.169.254" })
      "POST" none (some { source_url := some "https://169.254.169.254/latest" }) true).jobsInserted = [] ∧
    (serveIngest [] (fun _ => some { protocol := "https:", hostname := "169.254.169.254" })
      "POST" none (some { source_url := some "https://169.254.169.254/latest" }) true).eventsLogged = [] :=
  ssrf_urls_rejected [] (fun _ => some { protocol := "https:", hostname := "169.254.169.254" })
    none { source_url := some "https://169.254.169.254/latest" }
    "https://169.254.169.254/latest" { protocol := "https:", hostname := "169.254.169.254" }
    true rfl (by decide) rfl rfl (by decide)

end SIE
